import Mathlib

/-!
Verification of the AcademiQa backend notification glue.

Shallow embedding of `core/email_service.py` and `core/signals.py`:

* Django settings lookups become an explicit `EmailSettings` record;
  Python truthiness on optional strings is `pyTruthyStr`.
* The outcome of the SMTP layer (which the Python code reaches through
  `_open_smtp_connection` / `email.send`) is an explicit `SmtpResult`
  parameter: success with a sent count, a `socket.gaierror` (DNS/network
  resolution failure), or any other exception.
* A Python function that can let an exception escape to its caller is
  embedded as a function into `Except PyError _`; a caught exception shows
  up as an `ok` outcome carrying the log line the handler prints.
* The `post_save` signal handler `task_changed` is embedded as a function
  from its environment (channel-layer availability, `created` flag, whether
  the notification dispatch raises) to the ordered list of externally
  visible actions it performs, paired with a flag telling whether an
  exception propagated out of the handler.
-/

namespace AcademiQa

/-- Python truthiness of an optional string: `None` and `""` are falsy. -/
def pyTruthyStr : Option String → Bool
  | none => false
  | some s => s != ""

/-- Python `a or b` on two strings: `b` if `a` is falsy (empty). -/
def pyOrStr (a b : String) : String :=
  if a != "" then a else b

/-- Python `a or b` where `a` is an optional string and `b` a plain string. -/
def pyOrOptStr (o : Option String) (fallback : String) : String :=
  match o with
  | some s => if s != "" then s else fallback
  | none => fallback

/-- A Python exception escaping a function, as observed by the caller. -/
inductive PyError
  | attributeError (msg : String)
  deriving Repr, DecidableEq

/-- Outcome of the underlying SMTP send, the environment of each `try` block:
`socket.gaierror` is the DNS/network-resolution failure the source singles
out; `exn` is any other exception raised by connecting or sending. -/
inductive SmtpResult
  | ok (sent : Nat)
  | gaierror (msg : String)
  | exn (msg : String)
  deriving Repr, DecidableEq

/-- The Django settings the email service reads (`getattr(settings, ...)`);
`none` models an absent attribute. -/
structure EmailSettings where
  DISABLE_EMAILS : Bool
  DEFAULT_FROM_EMAIL : Option String
  EMAIL_HOST_USER : Option String
  FRONTEND_URL : Option String
  deriving Repr, DecidableEq

/-- `_safe_from_email`: `DEFAULT_FROM_EMAIL or EMAIL_HOST_USER`
(Python `or`: fall through when the first is falsy). -/
def safe_from_email (cfg : EmailSettings) : Option String :=
  if pyTruthyStr cfg.DEFAULT_FROM_EMAIL then cfg.DEFAULT_FROM_EMAIL
  else cfg.EMAIL_HOST_USER

/-- `getattr(settings, 'FRONTEND_URL', 'http://localhost:3000')`: the default
applies only when the attribute is absent, not when it is empty. -/
def frontend_url (cfg : EmailSettings) : String :=
  match cfg.FRONTEND_URL with
  | some u => u
  | none => "http://localhost:3000"

/-- A Django user as this glue sees it: `full_name` is the result of
`get_full_name()` (possibly empty), `username` the account handle. -/
structure User where
  id : Nat
  full_name : String
  username : String
  email : String
  deriving Repr, DecidableEq

/-- The fields of the `Task` model that the notifier and the signal handler
read.  Budgets are integers standing for the stored decimal values;
`task_id` is the optional pre-assigned task code. -/
structure Task where
  id : Nat
  title : String
  task_id : Option String
  status : String
  negotiation_status : String
  admin_counter_budget : Option Int
  budget : Option Int
  proposed_budget : Int
  client : User
  assigned_admin : Option User
  deriving Repr, DecidableEq

/-- A chat message; `sender` is `none` when the sender reference is missing. -/
structure ChatMessage where
  message : String
  sender : Option User
  deriving Repr, DecidableEq

/-- `f'TSK{task.id:04d}'`: zero-pad the id to at least four digits. -/
def formatTSK (id : Nat) : String :=
  let s := toString id
  "TSK" ++ String.mk (List.replicate (4 - s.length) '0') ++ s

/-- The subject line of `send_new_task_notification` (line 74 of
`core/email_service.py`):
`f"NEW TASK • {task.title} • {task.task_id or f'TSK{task.id:04d}'}"`. -/
def new_task_subject (t : Task) : String :=
  "NEW TASK • " ++ t.title ++ " • " ++ pyOrOptStr t.task_id (formatTSK t.id)

/-- What `send_new_task_notification` did, as the caller and the log see it.
The three skip/abort outcomes print one log line and return before any
send attempt; the two failure outcomes carry the printed log line of the
corresponding `except` branch. -/
inductive NewTaskOutcome
  | skippedDisabled
  | skippedNoRecipients
  | abortedNoSender
  | sentOk (n : Nat) (subject : String) (recipients : List String)
  | dnsFailure (log : String)
  | genericFailure (log : String)
  deriving Repr, DecidableEq

/-- `true` exactly when the outcome means a send was attempted on the wire. -/
def sendAttempted : NewTaskOutcome → Bool
  | NewTaskOutcome.sentOk _ _ _ => true
  | NewTaskOutcome.dnsFailure _ => true
  | NewTaskOutcome.genericFailure _ => true
  | _ => false

/-- `send_new_task_notification` (lines 59-114 of `core/email_service.py`).
`recipientsNewTask` is the module-level `RECIPIENTS_NEW_TASK` list.
Guards in source order: `DISABLE_EMAILS`, empty filtered recipient list,
falsy `_safe_from_email()`.  The `try` block maps `socket.gaierror` and any
other exception to their two distinct `except` branches; neither branch
re-raises, so the function never returns `Except.error`. -/
def send_new_task_notification (cfg : EmailSettings) (recipientsNewTask : List String)
    (task : Task) (smtp : SmtpResult) : Except PyError NewTaskOutcome :=
  if cfg.DISABLE_EMAILS then Except.ok NewTaskOutcome.skippedDisabled
  else
    let recipients := recipientsNewTask.filter (fun e => e != "")
    if recipients = [] then Except.ok NewTaskOutcome.skippedNoRecipients
    else
      let subject := new_task_subject task
      if pyTruthyStr (safe_from_email cfg) then
        match smtp with
        | SmtpResult.ok n => Except.ok (NewTaskOutcome.sentOk n subject recipients)
        | SmtpResult.gaierror e =>
            Except.ok (NewTaskOutcome.dnsFailure
              ("[email] DNS/Network error: " ++ e ++ " (cannot resolve or reach SMTP host)"))
        | SmtpResult.exn e =>
            Except.ok (NewTaskOutcome.genericFailure
              ("[email] FAILED to send new task email: " ++ e))
      else Except.ok NewTaskOutcome.abortedNoSender

/-- The template context of `send_task_status_update`. -/
structure StatusContext where
  student_name : String
  task_title : String
  task_status : String
  update_message : String
  admin_name : Option String
  task_url : String
  deriving Repr, DecidableEq

/-- Build the context dict of `send_task_status_update` (lines 124-131):
`student.get_full_name() or student.username`, the task title and status
label, the free-text update, the assigned admin's full name when an admin
is assigned, and the client dashboard URL. -/
def build_status_context (cfg : EmailSettings) (task : Task) (student : User)
    (update_message : String) : StatusContext :=
  { student_name := pyOrStr student.full_name student.username
    task_title := task.title
    task_status := task.status
    update_message := update_message
    admin_name :=
      match task.assigned_admin with
      | some a => some a.full_name
      | none => none
    task_url := frontend_url cfg ++ "/client/dashboard/tasks/" ++ toString task.id }

/-- Outcome of `send_task_status_update`: it has no recipient or sender
guard, and a single `except Exception` branch, so every failure (DNS
included) lands in `failed` with the one generic log line. -/
inductive StatusUpdateOutcome
  | skippedDisabled
  | sentOk (n : Nat) (ctx : StatusContext) (to_addrs : List String)
  | failed (log : String) (ctx : StatusContext)
  deriving Repr, DecidableEq

/-- `send_task_status_update` (lines 117-151 of `core/email_service.py`).
Only `DISABLE_EMAILS` is checked; the `try` block has a single
`except Exception` handler, so `socket.gaierror` and any other exception
are logged with the same generic message and never re-raised. -/
def send_task_status_update (cfg : EmailSettings) (task : Task) (student : User)
    (update_message : String) (smtp : SmtpResult) : Except PyError StatusUpdateOutcome :=
  if cfg.DISABLE_EMAILS then Except.ok StatusUpdateOutcome.skippedDisabled
  else
    let ctx := build_status_context cfg task student update_message
    match smtp with
    | SmtpResult.ok n => Except.ok (StatusUpdateOutcome.sentOk n ctx [student.email])
    | SmtpResult.gaierror e =>
        Except.ok (StatusUpdateOutcome.failed ("[email] FAILED status update email: " ++ e) ctx)
    | SmtpResult.exn e =>
        Except.ok (StatusUpdateOutcome.failed ("[email] FAILED status update email: " ++ e) ctx)

/-- The preview built by `send_new_message_notification` (line 161):
`(message.message[:100] + "...") if message.message and len(...) > 100
else message.message`. -/
def message_preview (m : String) : String :=
  if m != "" ∧ m.length > 100 then m.take 100 ++ "..." else m

/-- The template context of `send_new_message_notification`. -/
structure MsgContext where
  task_title : String
  sender_name : String
  message_preview : String
  task_url : String
  deriving Repr, DecidableEq

/-- Outcome of `send_new_message_notification` when no exception escapes;
the built context is part of the outcome so the composed notification is
observable. -/
inductive MsgNotifyOutcome
  | skippedDisabled
  | sentOk (n : Nat) (ctx : MsgContext) (to_addrs : List String)
  | failed (log : String) (ctx : MsgContext)
  deriving Repr, DecidableEq

/-- The sender name the outcome carries, when the outcome built a context. -/
def outcomeSenderName : MsgNotifyOutcome → Option String
  | MsgNotifyOutcome.sentOk _ ctx _ => some ctx.sender_name
  | MsgNotifyOutcome.failed _ ctx => some ctx.sender_name
  | MsgNotifyOutcome.skippedDisabled => none

/-- `send_new_message_notification` (lines 154-188 of `core/email_service.py`).
The context line `message.sender.get_full_name() or message.sender.username`
dereferences `message.sender` outside the `try` block: a missing sender
raises `AttributeError` which escapes to the caller (`Except.error`); there
is no literal "User" fallback anywhere in the function.  The `try` block
has a single `except Exception` branch that logs and swallows. -/
def send_new_message_notification (cfg : EmailSettings) (task : Task)
    (message : ChatMessage) (recipient : User) (smtp : SmtpResult) :
    Except PyError MsgNotifyOutcome :=
  if cfg.DISABLE_EMAILS then Except.ok MsgNotifyOutcome.skippedDisabled
  else
    let preview := message_preview message.message
    match message.sender with
    | none =>
        Except.error (PyError.attributeError
          "NoneType object has no attribute get_full_name")
    | some sender =>
        let ctx : MsgContext :=
          { task_title := task.title
            sender_name := pyOrStr sender.full_name sender.username
            message_preview := preview
            task_url := frontend_url cfg ++ "/client/dashboard/tasks/" ++ toString task.id }
        match smtp with
        | SmtpResult.ok n => Except.ok (MsgNotifyOutcome.sentOk n ctx [recipient.email])
        | SmtpResult.gaierror e =>
            Except.ok (MsgNotifyOutcome.failed
              ("[email] FAILED chat notification email: " ++ e) ctx)
        | SmtpResult.exn e =>
            Except.ok (MsgNotifyOutcome.failed
              ("[email] FAILED chat notification email: " ++ e) ctx)

/-- The broadcast snapshot `task_data` built by `task_changed`
(lines 15-23 of `core/signals.py`).  Fields keep the source serialization:
`admin_counter_budget` is `str(x) if x else None` (falsy check, so 0 maps
to `none`), `budget` is `str(x) if x is not None else None` (0 maps to
`some "0"`), `proposed_budget` is `str(x)` unconditionally. -/
structure TaskData where
  id : Nat
  status : String
  negotiation_status : String
  admin_counter_budget : Option String
  budget : Option String
  proposed_budget : String
  title : String
  deriving Repr, DecidableEq

/-- Build the `task_data` dict of `task_changed` from a task instance. -/
def build_task_data (t : Task) : TaskData :=
  { id := t.id
    status := t.status
    negotiation_status := t.negotiation_status
    admin_counter_budget :=
      match t.admin_counter_budget with
      | some b => if b != 0 then some (toString b) else none
      | none => none
    budget :=
      match t.budget with
      | some b => some (toString b)
      | none => none
    proposed_budget := toString t.proposed_budget
    title := t.title }

/-- An externally visible action of the `task_changed` signal handler, in
the order the handler performs them: a `group_send` of the full snapshot, a
`group_send` of the smaller `task_created` payload, the call into
`send_new_task_notification`, or the failure log printed by the handler's
`except` branch. -/
inductive SignalAction
  | group_send (group : String) (msgType : String) (data : TaskData)
  | group_send_created (group : String) (id : Nat) (title : String)
  | notify_new_task (taskId : Nat)
  | log_notify_failure (msg : String)
  deriving Repr, DecidableEq

/-- `task_changed` (lines 10-36 of `core/signals.py`), embedded as the
ordered list of externally visible actions plus a flag telling whether an
exception propagated out of the handler.  `layerAvailable` is the truthiness
of `get_channel_layer()` (deterministic within one process, so both calls
agree); `notifyRaises` says whether the `send_new_task_notification` call
raises — the handler wraps it in `try/except Exception` and logs, so the
propagation flag is always `false`. -/
def task_changed (layerAvailable : Bool) (inst : Task) (created : Bool)
    (notifyRaises : Bool) : List SignalAction × Bool :=
  let td := build_task_data inst
  let broadcasts :=
    if layerAvailable then
      [SignalAction.group_send "admin_dashboard" "task_updated" td,
       SignalAction.group_send ("client_" ++ toString inst.client.id) "task_updated" td]
    else []
  let createdActions :=
    if created then
      (if notifyRaises then
        [SignalAction.notify_new_task inst.id,
         SignalAction.log_notify_failure "[signals] failed to send new task email"]
       else
        [SignalAction.notify_new_task inst.id])
      ++ (if layerAvailable then
            [SignalAction.group_send_created "admin_dashboard" inst.id inst.title]
          else [])
    else []
  (broadcasts ++ createdActions, false)

/-- Modelled from the spec: the fire-and-forget delivery variant of the
notifier.  The spec describes it as a background-thread alternative present
in the repository alongside the synchronous notifier, but it is not among
the provided source files.  Per the spec, the triggering call hands the
composed message to a detached unit of execution and returns immediately,
so its return value cannot depend on the send outcome; a failure in the
detached unit is logged there and never surfaces to the caller. -/
structure FireAndForgetRun where
  caller_return : Except PyError Unit
  detached_log : Option String
  deriving Repr

/-- Modelled from the spec: one fire-and-forget send against a given SMTP
outcome.  The caller's return value is computed before (independently of)
the detached send; the detached unit logs failures only. -/
def fire_and_forget_send (smtp : SmtpResult) : FireAndForgetRun :=
  { caller_return := Except.ok ()
    detached_log :=
      match smtp with
      | SmtpResult.ok _ => none
      | SmtpResult.gaierror e => some ("[email] FAILED to send new task email: " ++ e)
      | SmtpResult.exn e => some ("[email] FAILED to send new task email: " ++ e) }

/-! Concrete example values used by counterexamples and witnesses. -/

/-- A configuration with emails enabled and a configured sender. -/
def exCfg : EmailSettings :=
  { DISABLE_EMAILS := false
    DEFAULT_FROM_EMAIL := some "noreply@academiqa.com"
    EMAIL_HOST_USER := some "account@gmail.com"
    FRONTEND_URL := none }

/-- The module-level `RECIPIENTS_NEW_TASK` list of the source. -/
def RECIPIENTS_NEW_TASK : List String := ["mbokenn95@gmail.com"]

/-- The client owning the example task. -/
def exClient : User :=
  { id := 3, full_name := "Jane Client", username := "jane", email := "jane@example.com" }

/-- The task of the spec's subject-line example: title "Essay Help", id 7,
no pre-assigned task code. -/
def exTask : Task :=
  { id := 7
    title := "Essay Help"
    task_id := none
    status := "pending"
    negotiation_status := "open"
    admin_counter_budget := none
    budget := none
    proposed_budget := 50
    client := exClient
    assigned_admin := none }

/-- Configuration equal to `exCfg` except that `DISABLE_EMAILS` is set. -/
def exCfgDisabled : EmailSettings := { exCfg with DISABLE_EMAILS := true }

/-- A sender whose `get_full_name()` is empty, forcing the username fallback. -/
def exSender : User :=
  { id := 9, full_name := "", username := "bob", email := "bob@example.com" }

/-- A chat message whose sender reference is present. -/
def exMsgWithSender : ChatMessage := { message := "hello", sender := some exSender }

/-- A chat message whose sender reference is missing. -/
def exMsgNoSender : ChatMessage := { message := "hello", sender := none }

/-- A 120-character message body. -/
def exBody120 : String := String.mk (List.replicate 120 'a')

/-- An 80-character message body. -/
def exBody80 : String := String.mk (List.replicate 80 'b')

/-! Theorems settling the claims. -/

/-- C1 (counterexample): with emails enabled, a configured sender and the
default recipient list, a generic send failure (`SMTPAuthenticationError`)
makes `send_new_task_notification` return normally with only the generic
failure log — the caller observes no propagated exception, contrary to the
claim that the exception is re-raised. -/
theorem new_task_send_failure_propagation_cex :
    send_new_task_notification exCfg RECIPIENTS_NEW_TASK exTask
        (SmtpResult.exn "SMTPAuthenticationError")
      = Except.ok (NewTaskOutcome.genericFailure
          ("[email] FAILED to send new task email: " ++ "SMTPAuthenticationError"))
    ∧ (send_new_task_notification exCfg RECIPIENTS_NEW_TASK exTask
        (SmtpResult.exn "SMTPAuthenticationError")).isOk = true :=
  ⟨rfl, rfl⟩

/-- C1 (amended): whenever `send_new_task_notification` reaches its send
(emails enabled, nonempty filtered recipients, configured sender), a generic
send failure is caught by the `except Exception` branch: the failure is
logged and the function returns normally; it is never re-raised to the
caller. -/
theorem new_task_send_failure_logged_not_reraised (cfg : EmailSettings)
    (recips : List String) (task : Task) (e : String)
    (hd : cfg.DISABLE_EMAILS = false)
    (hr : recips.filter (fun s => s != "") ≠ [])
    (hs : pyTruthyStr (safe_from_email cfg) = true) :
    send_new_task_notification cfg recips task (SmtpResult.exn e)
      = Except.ok (NewTaskOutcome.genericFailure
          ("[email] FAILED to send new task email: " ++ e)) := by
  simp [send_new_task_notification, hd, hr, hs]

/-- C1 (witness): the amended statement at a concrete failing send. -/
theorem new_task_send_failure_logged_not_reraised_witness :
    send_new_task_notification exCfg RECIPIENTS_NEW_TASK exTask
        (SmtpResult.exn "SMTPAuthenticationError")
      = Except.ok (NewTaskOutcome.genericFailure
          ("[email] FAILED to send new task email: " ++ "SMTPAuthenticationError")) :=
  new_task_send_failure_logged_not_reraised exCfg RECIPIENTS_NEW_TASK exTask
    "SMTPAuthenticationError" rfl (by decide) rfl

/-- C2 (counterexample): when the channel layer is unavailable
(`get_channel_layer()` falsy), a save with `created=True` performs only the
notification dispatch — none of the broadcasts — and a save with
`created=False` performs no action at all, contrary to the claim that four
(resp. two) actions occur on every save event. -/
theorem task_changed_four_actions_cex :
    (task_changed false exTask true false).1 = [SignalAction.notify_new_task 7]
    ∧ (task_changed false exTask false false).1 = [] :=
  ⟨rfl, rfl⟩

/-- C2 (amended): provided the channel layer is available, a save with
`created=True` (and a non-raising dispatch) performs exactly the four
actions in order — admin-dashboard broadcast, per-client broadcast,
notification dispatch, secondary "created" broadcast — and a save with
`created=False` performs exactly the first two, whether or not the dispatch
would raise. -/
theorem task_changed_action_order (t : Task) :
    (task_changed true t true false).1
      = [SignalAction.group_send "admin_dashboard" "task_updated" (build_task_data t),
         SignalAction.group_send ("client_" ++ toString t.client.id) "task_updated"
           (build_task_data t),
         SignalAction.notify_new_task t.id,
         SignalAction.group_send_created "admin_dashboard" t.id t.title]
    ∧ ∀ notifyRaises : Bool, (task_changed true t false notifyRaises).1
      = [SignalAction.group_send "admin_dashboard" "task_updated" (build_task_data t),
         SignalAction.group_send ("client_" ++ toString t.client.id) "task_updated"
           (build_task_data t)] := by
  refine ⟨rfl, fun nr => ?_⟩
  cases nr <;> rfl

/-- C3: on a `created=True` save whose notification dispatch raises, the
handler swallows the exception (the propagation flag is `false` for any
channel-layer state), the trace shows the dispatch followed by the
handler's failure log and then the secondary broadcast, and the first two
actions — in particular the per-client broadcast — are identical to the
non-failing run. -/
theorem task_changed_notify_failure_contained (b : Bool) (t : Task) :
    (task_changed b t true true).2 = false
    ∧ (task_changed true t true true).1
      = [SignalAction.group_send "admin_dashboard" "task_updated" (build_task_data t),
         SignalAction.group_send ("client_" ++ toString t.client.id) "task_updated"
           (build_task_data t),
         SignalAction.notify_new_task t.id,
         SignalAction.log_notify_failure "[signals] failed to send new task email",
         SignalAction.group_send_created "admin_dashboard" t.id t.title]
    ∧ (task_changed true t true true).1.take 2 = (task_changed true t true false).1.take 2 :=
  ⟨rfl, rfl, rfl⟩

/-- C4: for the task "Essay Help" with id 7 and no pre-assigned code, the
notification is sent with subject `NEW TASK • Essay Help • TSK0007`; in
general the subject embeds the title and either the pre-assigned task code
or the zero-padded fallback `TSK%04d`. -/
theorem new_task_subject_spec :
    send_new_task_notification exCfg RECIPIENTS_NEW_TASK exTask (SmtpResult.ok 1)
      = Except.ok (NewTaskOutcome.sentOk 1 "NEW TASK • Essay Help • TSK0007"
          ["mbokenn95@gmail.com"])
    ∧ ∀ t : Task, new_task_subject t
        = "NEW TASK • " ++ t.title ++ " • " ++ pyOrOptStr t.task_id (formatTSK t.id) :=
  ⟨rfl, fun _ => rfl⟩

/-- C5: for every message body longer than 100 characters the preview is the
first 100 characters followed by `...`; a body of at most 100 characters is
returned unchanged. -/
theorem message_preview_spec :
    (∀ s : String, s.length > 100 → message_preview s = s.take 100 ++ "...")
    ∧ (∀ s : String, s.length ≤ 100 → message_preview s = s) := by
  constructor
  · intro s h
    have hne : s ≠ "" := by
      intro he
      rw [he] at h
      simp at h
    rw [message_preview, if_pos]
    exact ⟨by simpa [bne_iff_ne] using hne, h⟩
  · intro s h
    rw [message_preview, if_neg]
    intro hc
    exact absurd hc.2 (by omega)

/-- C5 (witness): a 120-character body is truncated with an ellipsis; an
80-character body is unchanged. -/
theorem message_preview_spec_witness :
    exBody120.length > 100 ∧ message_preview exBody120 = exBody120.take 100 ++ "..."
    ∧ exBody80.length ≤ 100 ∧ message_preview exBody80 = exBody80 :=
  ⟨by decide, message_preview_spec.1 exBody120 (by decide),
   by decide, message_preview_spec.2 exBody80 (by decide)⟩

/-- C6: `send_new_task_notification` performs no send attempt and returns
without raising whenever `DISABLE_EMAILS` is set, or the filtered recipient
list is empty, or `_safe_from_email()` is falsy (neither `DEFAULT_FROM_EMAIL`
nor `EMAIL_HOST_USER` configured): the outcome is one of the log-only skip
outcomes. -/
theorem new_task_guards_skip_send (cfg : EmailSettings) (recips : List String)
    (task : Task) (smtp : SmtpResult)
    (h : cfg.DISABLE_EMAILS = true ∨ recips.filter (fun e => e != "") = []
         ∨ pyTruthyStr (safe_from_email cfg) = false) :
    ∃ o : NewTaskOutcome, send_new_task_notification cfg recips task smtp = Except.ok o
      ∧ sendAttempted o = false := by
  by_cases hd : cfg.DISABLE_EMAILS = true
  · exact ⟨NewTaskOutcome.skippedDisabled, by simp [send_new_task_notification, hd], rfl⟩
  · have hd' : cfg.DISABLE_EMAILS = false := by simpa using hd
    by_cases hr : recips.filter (fun e => e != "") = []
    · exact ⟨NewTaskOutcome.skippedNoRecipients,
        by simp [send_new_task_notification, hd', hr], rfl⟩
    · have hs : pyTruthyStr (safe_from_email cfg) = false := by
        rcases h with h | h | h
        · exact absurd h hd
        · exact absurd h hr
        · exact h
      exact ⟨NewTaskOutcome.abortedNoSender,
        by simp [send_new_task_notification, hd', hr, hs], rfl⟩

/-- C6 (witness): with `DISABLE_EMAILS` set, the concrete call skips. -/
theorem new_task_guards_skip_send_witness :
    ∃ o : NewTaskOutcome,
      send_new_task_notification exCfgDisabled RECIPIENTS_NEW_TASK exTask (SmtpResult.ok 1)
        = Except.ok o
      ∧ sendAttempted o = false :=
  new_task_guards_skip_send exCfgDisabled RECIPIENTS_NEW_TASK exTask (SmtpResult.ok 1)
    (Or.inl rfl)

/-- C7 (counterexample): a message whose sender reference is missing makes
`send_new_message_notification` raise an `AttributeError` that escapes to
the caller — no notification with sender name "User" is produced, contrary
to the claimed literal-"User" fallback. -/
theorem msg_missing_sender_raises_cex :
    send_new_message_notification exCfg exTask exMsgNoSender exClient (SmtpResult.ok 1)
      = Except.error (PyError.attributeError
          "NoneType object has no attribute get_full_name") :=
  rfl

/-- C7 (amended): the sender display name falls back from the sender's full
name to the sender's username only; when the sender reference is missing
the function raises (the `AttributeError` escapes) instead of falling back
to any literal. -/
theorem msg_sender_name_fallback (cfg : EmailSettings) (task : Task)
    (message : ChatMessage) (recipient : User) (smtp : SmtpResult)
    (hd : cfg.DISABLE_EMAILS = false) :
    (∀ u : User, message.sender = some u →
      ∃ out : MsgNotifyOutcome,
        send_new_message_notification cfg task message recipient smtp = Except.ok out
        ∧ outcomeSenderName out = some (pyOrStr u.full_name u.username))
    ∧ (message.sender = none →
        send_new_message_notification cfg task message recipient smtp
          = Except.error (PyError.attributeError
              "NoneType object has no attribute get_full_name")) := by
  constructor
  · intro u hu
    cases smtp with
    | ok n =>
        refine ⟨MsgNotifyOutcome.sentOk n
          { task_title := task.title
            sender_name := pyOrStr u.full_name u.username
            message_preview := message_preview message.message
            task_url := frontend_url cfg ++ "/client/dashboard/tasks/" ++ toString task.id }
          [recipient.email], ?_, rfl⟩
        simp [send_new_message_notification, hd, hu]
    | gaierror e =>
        refine ⟨MsgNotifyOutcome.failed ("[email] FAILED chat notification email: " ++ e)
          { task_title := task.title
            sender_name := pyOrStr u.full_name u.username
            message_preview := message_preview message.message
            task_url := frontend_url cfg ++ "/client/dashboard/tasks/" ++ toString task.id },
          ?_, rfl⟩
        simp [send_new_message_notification, hd, hu]
    | exn e =>
        refine ⟨MsgNotifyOutcome.failed ("[email] FAILED chat notification email: " ++ e)
          { task_title := task.title
            sender_name := pyOrStr u.full_name u.username
            message_preview := message_preview message.message
            task_url := frontend_url cfg ++ "/client/dashboard/tasks/" ++ toString task.id },
          ?_, rfl⟩
        simp [send_new_message_notification, hd, hu]
  · intro hn
    simp [send_new_message_notification, hd, hn]

/-- C7 (witness): a sender with empty full name falls back to the
username "bob". -/
theorem msg_sender_name_fallback_witness :
    ∃ out : MsgNotifyOutcome,
      send_new_message_notification exCfg exTask exMsgWithSender exClient (SmtpResult.ok 1)
        = Except.ok out
      ∧ outcomeSenderName out = some "bob" :=
  (msg_sender_name_fallback exCfg exTask exMsgWithSender exClient (SmtpResult.ok 1) rfl).1
    exSender rfl

/-- C8 (counterexample): in `send_task_status_update` a DNS resolution
failure is handled identically to a generic send failure — both land in the
single `except Exception` branch with the same generic log line — so the
distinct classification does not apply to all three operations. -/
theorem status_update_dns_not_distinguished_cex :
    send_task_status_update exCfg exTask exClient "update"
        (SmtpResult.gaierror "getaddrinfo failed")
      = send_task_status_update exCfg exTask exClient "update"
        (SmtpResult.exn "getaddrinfo failed")
    ∧ send_task_status_update exCfg exTask exClient "update"
        (SmtpResult.gaierror "getaddrinfo failed")
      = Except.ok (StatusUpdateOutcome.failed
          ("[email] FAILED status update email: " ++ "getaddrinfo failed")
          (build_status_context exCfg exTask exClient "update")) :=
  ⟨rfl, rfl⟩

/-- C8 (amended): only `send_new_task_notification` classifies DNS
resolution failures distinctly (its `socket.gaierror` branch, whose outcome
differs from the generic-failure outcome); `send_task_status_update` and
`send_new_message_notification` map a DNS failure and a generic failure to
the same logged outcome; in all three operations the failure is swallowed,
never propagated. -/
theorem dns_classification_only_new_task (cfg : EmailSettings) (recips : List String)
    (task : Task) (student : User) (update_message : String)
    (message : ChatMessage) (recipient : User) (e : String) (u : User)
    (hd : cfg.DISABLE_EMAILS = false)
    (hr : recips.filter (fun s => s != "") ≠ [])
    (hs : pyTruthyStr (safe_from_email cfg) = true)
    (hu : message.sender = some u) :
    send_new_task_notification cfg recips task (SmtpResult.gaierror e)
      = Except.ok (NewTaskOutcome.dnsFailure
          ("[email] DNS/Network error: " ++ e ++ " (cannot resolve or reach SMTP host)"))
    ∧ send_new_task_notification cfg recips task (SmtpResult.gaierror e)
        ≠ send_new_task_notification cfg recips task (SmtpResult.exn e)
    ∧ send_task_status_update cfg task student update_message (SmtpResult.gaierror e)
        = Except.ok (StatusUpdateOutcome.failed
            ("[email] FAILED status update email: " ++ e)
            (build_status_context cfg task student update_message))
    ∧ send_task_status_update cfg task student update_message (SmtpResult.gaierror e)
        = send_task_status_update cfg task student update_message (SmtpResult.exn e)
    ∧ send_new_message_notification cfg task message recipient (SmtpResult.gaierror e)
        = send_new_message_notification cfg task message recipient (SmtpResult.exn e) := by
  refine ⟨by simp [send_new_task_notification, hd, hr, hs], ?_,
    by simp [send_task_status_update, hd], by simp [send_task_status_update, hd],
    by simp [send_new_message_notification, hd, hu]⟩
  simp [send_new_task_notification, hd, hr, hs]

/-- C8 (witness): the amended statement at concrete inputs. -/
theorem dns_classification_only_new_task_witness :
    send_new_task_notification exCfg RECIPIENTS_NEW_TASK exTask
        (SmtpResult.gaierror "getaddrinfo failed")
      = Except.ok (NewTaskOutcome.dnsFailure
          ("[email] DNS/Network error: " ++ "getaddrinfo failed"
            ++ " (cannot resolve or reach SMTP host)"))
    ∧ send_new_task_notification exCfg RECIPIENTS_NEW_TASK exTask
        (SmtpResult.gaierror "getaddrinfo failed")
        ≠ send_new_task_notification exCfg RECIPIENTS_NEW_TASK exTask
          (SmtpResult.exn "getaddrinfo failed")
    ∧ send_task_status_update exCfg exTask exClient "update"
        (SmtpResult.gaierror "getaddrinfo failed")
        = Except.ok (StatusUpdateOutcome.failed
            ("[email] FAILED status update email: " ++ "getaddrinfo failed")
            (build_status_context exCfg exTask exClient "update"))
    ∧ send_task_status_update exCfg exTask exClient "update"
        (SmtpResult.gaierror "getaddrinfo failed")
        = send_task_status_update exCfg exTask exClient "update"
          (SmtpResult.exn "getaddrinfo failed")
    ∧ send_new_message_notification exCfg exTask exMsgWithSender exClient
        (SmtpResult.gaierror "getaddrinfo failed")
        = send_new_message_notification exCfg exTask exMsgWithSender exClient
          (SmtpResult.exn "getaddrinfo failed") :=
  dns_classification_only_new_task exCfg RECIPIENTS_NEW_TASK exTask exClient "update"
    exMsgWithSender exClient "getaddrinfo failed" exSender rfl (by decide) rfl rfl

/-- C9: in the fire-and-forget delivery mode (modelled from the spec, the
variant being absent from the provided source files), the triggering call
returns `ok` for every SMTP outcome, its return value is independent of the
send outcome (it does not wait for the send), and a failure in the detached
unit is observable only as the detached unit's log line. -/
theorem fire_and_forget_contract (s1 s2 : SmtpResult) (e : String) :
    (fire_and_forget_send s1).caller_return = Except.ok ()
    ∧ (fire_and_forget_send s1).caller_return = (fire_and_forget_send s2).caller_return
    ∧ (fire_and_forget_send (SmtpResult.exn e)).detached_log
        = some ("[email] FAILED to send new task email: " ++ e)
    ∧ (fire_and_forget_send (SmtpResult.gaierror e)).detached_log
        = some ("[email] FAILED to send new task email: " ++ e) :=
  ⟨rfl, rfl, rfl, rfl⟩

/-- C10: in the broadcast snapshot, `budget` is stringified whenever present
(a zero budget becomes `"0"`), `admin_counter_budget` is dropped to `none`
whenever falsy (a zero admin counter becomes `none`, not `"0"`), and
`proposed_budget` is stringified unconditionally. -/
theorem task_data_budget_serialization :
    (build_task_data { exTask with budget := some 0, admin_counter_budget := some 0 }).budget
      = some "0"
    ∧ (build_task_data
        { exTask with budget := some 0, admin_counter_budget := some 0 }).admin_counter_budget
      = none
    ∧ (∀ t : Task, ∀ b : Int, (build_task_data { t with budget := some b }).budget
        = some (toString b))
    ∧ (∀ t : Task, (build_task_data { t with budget := none }).budget = none)
    ∧ (∀ t : Task,
        (build_task_data { t with admin_counter_budget := some 0 }).admin_counter_budget = none)
    ∧ (∀ t : Task, ∀ b : Int, b ≠ 0 →
        (build_task_data { t with admin_counter_budget := some b }).admin_counter_budget
          = some (toString b))
    ∧ (∀ t : Task, (build_task_data t).proposed_budget = toString t.proposed_budget) := by
  refine ⟨rfl, rfl, fun t b => rfl, fun t => rfl, fun t => rfl, fun t b hb => ?_, fun t => rfl⟩
  simp [build_task_data, bne_iff_ne, hb]

/-- C10 (witness): a nonzero admin counter budget is stringified. -/
theorem task_data_budget_serialization_witness :
    (build_task_data { exTask with admin_counter_budget := some 5 }).admin_counter_budget
      = some "5" :=
  task_data_budget_serialization.2.2.2.2.2.1 exTask 5 (by decide)

end AcademiQa
